import Mathlib

/-!
# Verification of the voice-identity and backend-adapter model of `ai_voice_agent`

Shallow embedding of `src/voice_agent/tts_engine.py` (class `TTSEngine`):
the Voice Store (the `voices/` directory) is modelled as an association
list from directory names to directories, a directory being an association
list from file names to file contents.  The neural models are opaque
collaborators: `Zonos.make_speaker_embedding` is modelled as a constructor
tagged with the source audio path (it is deterministic per input audio),
and the Kokoro pipeline as an abstract function from `(text, voice)` to the
list of waveform segments it emits, in emission order.
-/

deriving instance DecidableEq for Except

namespace VoiceAgent

/-- Contents of a file inside the voices directory.  `sample src` is the
processed copy of the audio at path `src` (pydub export, mono / resampled);
`embedding src` is the Zonos speaker embedding computed from the audio at
path `src` (`model.make_speaker_embedding` after mono mix-down). -/
inductive Content where
  | sample (src : String)
  | embedding (src : String)
deriving DecidableEq, Repr

/-- A directory: file name ↦ file content. -/
abbrev DirFiles := List (String × Content)

/-- The Voice Store (`voices/` directory): directory name ↦ directory. -/
abbrev Store := List (String × DirFiles)

/-- First-match association-list lookup. -/
def lookupA {α : Type} : List (String × α) → String → Option α
  | [], _ => none
  | p :: rest, k => if p.1 = k then some p.2 else lookupA rest k

/-- Association-list update: overwrite the first entry with key `k`,
append a fresh entry if none exists. -/
def setA {α : Type} : List (String × α) → String → α → List (String × α)
  | [], k, v => [(k, v)]
  | p :: rest, k, v => if p.1 = k then (k, v) :: rest else p :: setA rest k v

/-- Number of entries with key `k`. -/
def countKeys {α : Type} : List (String × α) → String → Nat
  | [], _ => 0
  | p :: rest, k => (if p.1 = k then 1 else 0) + countKeys rest k

/-- Read `voices/<dir>/<file>`. -/
def readFile (s : Store) (dir file : String) : Option Content :=
  match lookupA s dir with
  | none => none
  | some files => lookupA files file

/-- Write `voices/<dir>/<file>` (creating the directory if needed:
every write in the source is preceded by `mkdir(exist_ok=True)`). -/
def writeFile (s : Store) (dir file : String) (c : Content) : Store :=
  setA s dir (setA ((lookupA s dir).getD []) file c)

/-- Split a character list on a separator, Python `str.split(sep)` style:
always at least one group, empty groups kept. -/
def splitOnChar (sep : Char) : List Char → List (List Char)
  | [] => [[]]
  | c :: rest =>
    let r := splitOnChar sep rest
    if c = sep then [] :: r
    else match r with
      | [] => [[c]]
      | g :: gs => (c :: g) :: gs

/-- `os.path.basename`: the part of the path after the last `/`. -/
def basename (p : String) : String :=
  String.mk ((splitOnChar '/' p.toList).getLastD [])

/-- `name.split('.')[0]`: the part of a file name before the first dot. -/
def firstDotPart (s : String) : String :=
  String.mk ((splitOnChar '.' s.toList).headD [])

/-- Index of the last `.` in a list of characters, if any. -/
def lastDotIdx (cs : List Char) : Option Nat :=
  match cs.reverse.findIdx? (fun c => c = '.') with
  | none => none
  | some j => some (cs.length - 1 - j)

/-- Python `pathlib.Path(p).stem`: the final path component without its
last suffix.  A suffix exists only when the last dot is neither the first
nor past the last character of the name. -/
def pyStem (p : String) : String :=
  let name := basename p
  let cs := name.toList
  match lastDotIdx cs with
  | none => name
  | some i => if 0 < i ∧ i < cs.length - 1 then String.mk (cs.take i) else name

/-- Voice id derived by `_clone_voice_kokoro` when none is supplied:
`f"kokoro_{os.path.basename(audio_path).split('.')[0]}"`. -/
def kokoroAutoId (audio_path : String) : String :=
  "kokoro_" ++ firstDotPart (basename audio_path)

/-- Voice id derived by `_clone_voice_zonos` when none is supplied:
`f"zonos_{os.path.basename(audio_path).split('.')[0]}"`. -/
def zonosAutoId (audio_path : String) : String :=
  "zonos_" ++ firstDotPart (basename audio_path)

/-- Errors raised by `clone_voice`. -/
inductive CloneErr where
  | fileNotFound
  | unsupportedModel
deriving DecidableEq, Repr

/-- Errors raised by `synthesize`.  `noVoiceAvailable` models the
`ValueError("Reference audio is required for Zonos when no default speaker
embedding exists")` raised at tts_engine.py:209 — the condition the spec
names `NoVoiceAvailableError`. -/
inductive SynthErr where
  | noVoiceAvailable
  | unsupportedModel
deriving DecidableEq, Repr

/-- A materialized audio artifact: waveform samples plus the sample rate
written into the file header. -/
structure AudioArtifact where
  samples : List Int
  rate : Nat
deriving DecidableEq, Repr

/-- Result of a successful synthesis: for Kokoro the written artifact,
for Zonos the speaker embedding generation was conditioned on (the
waveform itself comes from the opaque Zonos model at its native rate). -/
inductive SynthOutput where
  | kokoro (art : AudioArtifact)
  | zonos (speaker : Content)
deriving DecidableEq, Repr

/-- `TTSEngine._synthesize_kokoro`: runs the pipeline, appends the emitted
segments to a list in emission order, concatenates them, and writes the
result at the fixed rate 24000 (tts_engine.py:169-189).  `segments` is the
pipeline generator's output. -/
def synthesize_kokoro (segments : List (List Int)) : AudioArtifact :=
  let audio_segments := segments.foldl (fun acc a => acc ++ [a]) []
  { samples := audio_segments.flatten, rate := 24000 }

/-- `TTSEngine._synthesize_zonos` (tts_engine.py:191-240): with no
reference audio, load `voices/zonos_default/speaker_embedding.pt` or fail;
with reference audio, compute the embedding and save it to
`voices/zonos_<stem>/speaker_embedding.pt` before generating.  Returns the
speaker embedding used and the updated store. -/
def synthesize_zonos (s : Store) (reference_audio : Option String) :
    Except SynthErr Content × Store :=
  match reference_audio with
  | none =>
    match readFile s "zonos_default" "speaker_embedding.pt" with
    | some speaker => (.ok speaker, s)
    | none => (.error .noVoiceAvailable, s)
  | some ra =>
    let speaker := Content.embedding ra
    let s1 := writeFile s ("zonos_" ++ pyStem ra) "speaker_embedding.pt" speaker
    (.ok speaker, s1)

/-- `TTSEngine.synthesize` dispatch (tts_engine.py:151-156): Kokoro gets
`(text, voice, speed, split_pattern)`, Zonos gets `(text, reference_audio)`
— the `voice` argument is not forwarded to the Zonos path.  `pipeline`
abstracts the Kokoro generator (speed and split pattern folded in). -/
def synthesize (pipeline : String → String → List (List Int)) (model_type : String)
    (s : Store) (text voice : String) (reference_audio : Option String) :
    Except SynthErr SynthOutput × Store :=
  if model_type = "kokoro" then
    (.ok (.kokoro (synthesize_kokoro (pipeline text voice))), s)
  else if model_type = "zonos" then
    match synthesize_zonos s reference_audio with
    | (.ok speaker, s1) => (.ok (.zonos speaker), s1)
    | (.error e, s1) => (.error e, s1)
  else
    (.error .unsupportedModel, s)

/-- `TTSEngine._clone_voice_kokoro` (tts_engine.py:266-288): derive the id
if none supplied, make the voice directory, process the sample and export
it as `sample.wav`. -/
def clone_voice_kokoro (s : Store) (audio_path : String) (voice_id : Option String) :
    String × Store :=
  let vid := voice_id.getD (kokoroAutoId audio_path)
  let s1 := writeFile s vid "sample.wav" (Content.sample audio_path)
  (vid, s1)

/-- `TTSEngine._clone_voice_zonos` (tts_engine.py:290-327): derive the id
if none supplied, compute and save the speaker embedding, save a processed
copy of the sample, and when `make_default` also copy the embedding to
`voices/zonos_default/speaker_embedding.pt`. -/
def clone_voice_zonos (s : Store) (audio_path : String) (voice_id : Option String)
    (make_default : Bool) : String × Store :=
  let vid := voice_id.getD (zonosAutoId audio_path)
  let emb := Content.embedding audio_path
  let s1 := writeFile s vid "speaker_embedding.pt" emb
  let s2 := writeFile s1 vid "sample.wav" (Content.sample audio_path)
  let s3 := if make_default then
    writeFile s2 "zonos_default" "speaker_embedding.pt" emb
  else s2
  (vid, s3)

/-- `TTSEngine.clone_voice` (tts_engine.py:242-264): check the sample file
exists before any dispatch, then dispatch on the engine's model type.
`fsExists` models `os.path.exists` on the external filesystem. -/
def clone_voice (fsExists : String → Bool) (model_type : String) (s : Store)
    (audio_path : String) (voice_id : Option String) (make_default : Bool) :
    Except CloneErr String × Store :=
  if fsExists audio_path = false then
    (.error .fileNotFound, s)
  else if model_type = "kokoro" then
    let r := clone_voice_kokoro s audio_path voice_id
    (.ok r.1, r.2)
  else if model_type = "zonos" then
    let r := clone_voice_zonos s audio_path voice_id make_default
    (.ok r.1, r.2)
  else
    (.error .unsupportedModel, s)

/-- Python `str.startswith`, character by character. -/
def beginsWith : List Char → List Char → Bool
  | [], _ => true
  | _ :: _, [] => false
  | p :: ps, c :: cs => if p = c then beginsWith ps cs else false

/-- `name.startswith(pre)` on strings. -/
def strStartsWith (s pre : String) : Bool :=
  beginsWith pre.toList s.toList

/-- Result of `list_voices`. -/
structure VoiceList where
  preset : List String
  cloned : List String
deriving DecidableEq, Repr

/-- Kokoro preset voices (tts_engine.py:88). -/
def available_voices_kokoro : List String := ["af_heart", "af_woh", "am_standard"]

/-- `TTSEngine._list_voices_kokoro` (tts_engine.py:343-356): cloned voices
are the subdirectories whose name starts with `kokoro_`. -/
def list_voices_kokoro (s : Store) : VoiceList :=
  { preset := available_voices_kokoro,
    cloned := s.filterMap fun p =>
      if strStartsWith p.1 "kokoro_" then some p.1 else none }

/-- `TTSEngine._list_voices_zonos` (tts_engine.py:358-376): cloned voices
are the subdirectories whose name starts with `zonos_` and which contain
`speaker_embedding.pt`; preset is `["default"]` exactly when
`voices/zonos_default/speaker_embedding.pt` exists. -/
def list_voices_zonos (s : Store) : VoiceList :=
  { preset :=
      if (readFile s "zonos_default" "speaker_embedding.pt").isSome then ["default"] else [],
    cloned := s.filterMap fun p =>
      if strStartsWith p.1 "zonos_" && (lookupA p.2 "speaker_embedding.pt").isSome
      then some p.1 else none }

/-- Modelled from the spec: the Voice Store `resolve` operation (spec §4.1)
has no corresponding function in `src`; per the spec it fails when no
matching directory exists, or (Zonos) when the directory lacks the
required embedding file. -/
def resolve (model_type : String) (s : Store) (voice_id : String) : Option DirFiles :=
  match lookupA s voice_id with
  | none => none
  | some files =>
    if model_type = "zonos" && !(lookupA files "speaker_embedding.pt").isSome
    then none else some files

/-! ## Basic lemmas about the store model -/

theorem lookupA_setA_self {α : Type} (l : List (String × α)) (k : String) (v : α) :
    lookupA (setA l k v) k = some v := by
  induction l with
  | nil => simp [setA, lookupA]
  | cons p rest ih =>
    by_cases h : p.1 = k
    · simp [setA, h, lookupA]
    · simp [setA, h, lookupA, ih]

theorem lookupA_setA_ne {α : Type} (l : List (String × α)) (k k' : String) (v : α)
    (h : k' ≠ k) : lookupA (setA l k v) k' = lookupA l k' := by
  have hk : ¬ k = k' := fun hc => h hc.symm
  induction l with
  | nil => simp [setA, lookupA, hk]
  | cons p rest ih =>
    by_cases hp : p.1 = k
    · subst hp
      simp [setA, lookupA, hk]
    · simp [setA, hp, lookupA, ih]

theorem lookupA_some_mem {α : Type} (l : List (String × α)) (k : String) (v : α)
    (h : lookupA l k = some v) : (k, v) ∈ l := by
  induction l with
  | nil => simp [lookupA] at h
  | cons p rest ih =>
    obtain ⟨a, b⟩ := p
    by_cases hp : a = k
    · simp [lookupA, hp] at h
      subst hp
      subst h
      exact List.mem_cons_self _ _
    · simp [lookupA, hp] at h
      exact List.mem_cons_of_mem _ (ih h)

theorem countKeys_setA {α : Type} (l : List (String × α)) (k : String) (v : α)
    (h : countKeys l k ≤ 1) : countKeys (setA l k v) k = 1 := by
  induction l with
  | nil => simp [setA, countKeys]
  | cons p rest ih =>
    by_cases hp : p.1 = k
    · simp [setA, hp, countKeys] at *
      omega
    · simp [setA, hp, countKeys] at *
      exact ih h

theorem countKeys_setA_le {α : Type} (l : List (String × α)) (k : String) (v : α)
    (h : countKeys l k ≤ 1) : countKeys (setA l k v) k ≤ 1 := by
  rw [countKeys_setA l k v h]

theorem readFile_writeFile_self (s : Store) (d f : String) (c : Content) :
    readFile (writeFile s d f c) d f = some c := by
  unfold readFile writeFile
  rw [lookupA_setA_self]
  exact lookupA_setA_self _ _ _

theorem readFile_writeFile_ne_dir (s : Store) (d d' f f' : String) (c : Content)
    (h : d' ≠ d) : readFile (writeFile s d f c) d' f' = readFile s d' f' := by
  unfold readFile writeFile
  rw [lookupA_setA_ne _ _ _ _ h]

theorem readFile_writeFile_ne_file (s : Store) (d f f' : String) (c : Content)
    (h : f' ≠ f) : readFile (writeFile s d f c) d f' = readFile s d f' := by
  unfold readFile writeFile
  rw [lookupA_setA_self]
  cases hl : lookupA s d with
  | none =>
    have hf : ¬ f = f' := fun hc => h hc.symm
    simp [setA, lookupA, hf]
  | some files => exact lookupA_setA_ne files f f' c h

theorem readFile_writeFile_frame (s : Store) (d f d' f' : String) (c : Content)
    (h : d' ≠ d ∨ f' ≠ f) : readFile (writeFile s d f c) d' f' = readFile s d' f' := by
  by_cases hd : d' = d
  · subst hd
    rcases h with h | h
    · exact absurd rfl h
    · exact readFile_writeFile_ne_file s d' f f' c h
  · exact readFile_writeFile_ne_dir s d d' f f' c hd

theorem countKeys_writeFile (s : Store) (d f : String) (c : Content)
    (h : countKeys s d ≤ 1) : countKeys (writeFile s d f c) d = 1 :=
  countKeys_setA s d _ h

theorem readFile_some_lookup (s : Store) (d f : String) (c : Content)
    (h : readFile s d f = some c) :
    ∃ files, lookupA s d = some files ∧ lookupA files f = some c := by
  unfold readFile at h
  cases hl : lookupA s d with
  | none => rw [hl] at h; exact absurd h (by simp)
  | some files => rw [hl] at h; exact ⟨files, rfl, h⟩

theorem foldl_snoc_eq {α : Type} :
    ∀ (l : List α) (init : List α),
      l.foldl (fun acc a => acc ++ [a]) init = init ++ l
  | [], init => by simp
  | a :: l, init => by
    simp only [List.foldl_cons]
    rw [foldl_snoc_eq l (init ++ [a])]
    simp

theorem mem_cloned_kokoro_iff (s : Store) (name : String) :
    name ∈ (list_voices_kokoro s).cloned ↔
      ∃ files, (name, files) ∈ s ∧ strStartsWith name "kokoro_" = true := by
  unfold list_voices_kokoro
  simp only [List.mem_filterMap]
  constructor
  · rintro ⟨⟨a, files⟩, hp, hf⟩
    by_cases h1 : strStartsWith a "kokoro_" = true
    · simp [h1] at hf
      subst hf
      exact ⟨files, hp, h1⟩
    · simp [h1] at hf
  · rintro ⟨files, hmem, h1⟩
    refine ⟨(name, files), hmem, ?_⟩
    simp [h1]

theorem mem_cloned_zonos_iff (s : Store) (name : String) :
    name ∈ (list_voices_zonos s).cloned ↔
      ∃ files, (name, files) ∈ s ∧ strStartsWith name "zonos_" = true ∧
        (lookupA files "speaker_embedding.pt").isSome = true := by
  unfold list_voices_zonos
  simp only [List.mem_filterMap]
  constructor
  · rintro ⟨⟨a, files⟩, hp, hf⟩
    by_cases h1 : strStartsWith a "zonos_" = true
    · by_cases h2 : (lookupA files "speaker_embedding.pt").isSome = true
      · simp [h1, h2] at hf
        subst hf
        exact ⟨files, hp, h1, h2⟩
      · simp [h1, h2] at hf
    · simp [h1] at hf
  · rintro ⟨files, hmem, h1, h2⟩
    refine ⟨(name, files), hmem, ?_⟩
    simp [h1, h2]

/-! ## Claims -/

/-- C10: for every audio path that does not exist on the filesystem,
`clone_voice` (for either backend — indeed for any model type, before any
dispatch) fails with `FileNotFoundError` and leaves the Voice Store
completely unchanged. -/
theorem C10_clone_missing_file_rejected (fsExists : String → Bool)
    (model_type : String) (s : Store) (audio_path : String)
    (voice_id : Option String) (make_default : Bool)
    (h : fsExists audio_path = false) :
    clone_voice fsExists model_type s audio_path voice_id make_default
      = (.error .fileNotFound, s) := by
  simp [clone_voice, h]

/-- Witness for C10 at a concrete input. -/
theorem C10_clone_missing_file_rejected_witness :
    clone_voice (fun _ => false) "kokoro" [] "missing.wav" none false
      = (.error .fileNotFound, []) :=
  C10_clone_missing_file_rejected (fun _ => false) "kokoro" [] "missing.wav"
    none false rfl

/-- C8: for every text input (i.e. for every segment list the Kokoro
pipeline emits for it), Kokoro synthesis produces exactly the segment
waveforms concatenated in emission order, and the artifact is written with
the fixed sample rate 24000 Hz; the Voice Store is untouched. -/
theorem C8_kokoro_concat_in_order_at_24000
    (pipeline : String → String → List (List Int)) (s : Store)
    (text voice : String) (reference_audio : Option String) :
    synthesize pipeline "kokoro" s text voice reference_audio
      = (.ok (.kokoro { samples := (pipeline text voice).flatten, rate := 24000 }), s) := by
  simp [synthesize, synthesize_kokoro, foldl_snoc_eq]

/-- C9: Zonos `list_voices` returns `preset = ["default"]` exactly when
`voices/zonos_default/speaker_embedding.pt` exists (else `[]`), and
`cloned` contains a name exactly when the store has a `zonos_`-prefixed
directory of that name containing `speaker_embedding.pt` — a directory
without its embedding file is invisible to listing. -/
theorem C9_list_voices_zonos_characterization (s : Store) :
    ((list_voices_zonos s).preset
        = if (readFile s "zonos_default" "speaker_embedding.pt").isSome
          then ["default"] else [])
    ∧ ∀ name, name ∈ (list_voices_zonos s).cloned ↔
        ∃ files, (name, files) ∈ s ∧ strStartsWith name "zonos_" = true ∧
          (lookupA files "speaker_embedding.pt").isSome = true :=
  ⟨rfl, fun name => mem_cloned_zonos_iff s name⟩

theorem clone_zonos_default_embedding (s : Store) (audio : String)
    (voice_id : Option String) :
    readFile (clone_voice_zonos s audio voice_id true).2
        "zonos_default" "speaker_embedding.pt"
      = some (Content.embedding audio) := by
  simp only [clone_voice_zonos, if_true]
  exact readFile_writeFile_self _ _ _ _

/-- C3: for Zonos, after a clone with `make_default = true`, a synthesize
call with no reference audio succeeds, conditioned on the embedding of the
cloned sample; on a store whose default slot is empty, such a call fails
with the no-voice-available error (the `ValueError` at tts_engine.py:209,
which the spec names `NoVoiceAvailableError`). -/
theorem C3_make_default_enables_synthesis (fsExists : String → Bool)
    (pipeline : String → String → List (List Int)) (s s₂ : Store)
    (audio : String) (voice_id : Option String) (text voice text₂ voice₂ : String)
    (hex : fsExists audio = true)
    (hnodef : readFile s₂ "zonos_default" "speaker_embedding.pt" = none) :
    (synthesize pipeline "zonos" (clone_voice fsExists "zonos" s audio voice_id true).2
        text voice none
      = (.ok (.zonos (Content.embedding audio)),
          (clone_voice fsExists "zonos" s audio voice_id true).2))
    ∧ synthesize pipeline "zonos" s₂ text₂ voice₂ none
      = (.error .noVoiceAvailable, s₂) := by
  constructor
  · have h2 : (clone_voice fsExists "zonos" s audio voice_id true).2
        = (clone_voice_zonos s audio voice_id true).2 := by
      simp [clone_voice, hex]
    rw [h2]
    have hread := clone_zonos_default_embedding s audio voice_id
    simp [synthesize, synthesize_zonos, hread]
  · simp [synthesize, synthesize_zonos, hnodef]

/-- Witness for C3 at concrete inputs. -/
theorem C3_make_default_enables_synthesis_witness :
    ((fun (_ : String) => true) "a.wav" = true
      ∧ readFile ([] : Store) "zonos_default" "speaker_embedding.pt" = none)
    ∧ ((synthesize (fun _ _ => []) "zonos"
          (clone_voice (fun _ => true) "zonos" [] "a.wav" none true).2 "hi" "v" none
        = (.ok (.zonos (Content.embedding "a.wav")),
            (clone_voice (fun _ => true) "zonos" [] "a.wav" none true).2))
      ∧ synthesize (fun _ _ => []) "zonos" [] "t" "w" none
        = (.error .noVoiceAvailable, [])) :=
  ⟨⟨rfl, rfl⟩,
    C3_make_default_enables_synthesis (fun _ => true) (fun _ _ => []) [] []
      "a.wav" none "hi" "v" "t" "w" rfl rfl⟩

/-- C7: cloning twice through `clone_voice` with the same explicit
voice_id (either backend) returns that id both times and leaves exactly
one directory for it, holding the second sample's data — the second call
overwrites the first, with no duplicate and no conflict error. -/
theorem C7_clone_explicit_id_idempotent (fsExists : String → Bool) (s : Store)
    (a1 a2 vid : String)
    (hex1 : fsExists a1 = true) (hex2 : fsExists a2 = true)
    (hcount : countKeys s vid ≤ 1) :
    (∃ s1 s2,
      clone_voice fsExists "kokoro" s a1 (some vid) false = (.ok vid, s1)
      ∧ clone_voice fsExists "kokoro" s1 a2 (some vid) false = (.ok vid, s2)
      ∧ countKeys s2 vid = 1
      ∧ readFile s2 vid "sample.wav" = some (Content.sample a2))
    ∧ (∃ s1 s2,
      clone_voice fsExists "zonos" s a1 (some vid) false = (.ok vid, s1)
      ∧ clone_voice fsExists "zonos" s1 a2 (some vid) false = (.ok vid, s2)
      ∧ countKeys s2 vid = 1
      ∧ readFile s2 vid "speaker_embedding.pt" = some (Content.embedding a2)
      ∧ readFile s2 vid "sample.wav" = some (Content.sample a2)) := by
  constructor
  · refine ⟨writeFile s vid "sample.wav" (Content.sample a1),
      writeFile (writeFile s vid "sample.wav" (Content.sample a1))
        vid "sample.wav" (Content.sample a2), ?_, ?_, ?_, ?_⟩
    · simp [clone_voice, hex1, clone_voice_kokoro]
    · simp [clone_voice, hex2, clone_voice_kokoro]
    · exact countKeys_writeFile _ _ _ _
        (le_of_eq (countKeys_writeFile s vid _ _ hcount))
    · exact readFile_writeFile_self _ _ _ _
  · have hsp : ("speaker_embedding.pt" : String) ≠ "sample.wav" := by decide
    refine ⟨writeFile (writeFile s vid "speaker_embedding.pt" (Content.embedding a1))
        vid "sample.wav" (Content.sample a1),
      writeFile (writeFile (writeFile (writeFile s vid "speaker_embedding.pt"
            (Content.embedding a1)) vid "sample.wav" (Content.sample a1))
          vid "speaker_embedding.pt" (Content.embedding a2))
        vid "sample.wav" (Content.sample a2), ?_, ?_, ?_, ?_, ?_⟩
    · simp [clone_voice, hex1, clone_voice_zonos]
    · simp [clone_voice, hex2, clone_voice_zonos]
    · exact countKeys_writeFile _ _ _ _ (le_of_eq (countKeys_writeFile _ _ _ _
        (le_of_eq (countKeys_writeFile _ _ _ _
          (le_of_eq (countKeys_writeFile s vid _ _ hcount))))))
    · rw [readFile_writeFile_ne_file _ _ _ _ _ hsp]
      exact readFile_writeFile_self _ _ _ _
    · exact readFile_writeFile_self _ _ _ _

/-- Witness for C7 at concrete inputs. -/
theorem C7_clone_explicit_id_idempotent_witness :
    ((fun (_ : String) => true) "x.wav" = true
      ∧ (fun (_ : String) => true) "y.wav" = true
      ∧ countKeys ([] : Store) "v" ≤ 1)
    ∧ ((∃ s1 s2,
        clone_voice (fun _ => true) "kokoro" [] "x.wav" (some "v") false = (.ok "v", s1)
        ∧ clone_voice (fun _ => true) "kokoro" s1 "y.wav" (some "v") false = (.ok "v", s2)
        ∧ countKeys s2 "v" = 1
        ∧ readFile s2 "v" "sample.wav" = some (Content.sample "y.wav"))
      ∧ (∃ s1 s2,
        clone_voice (fun _ => true) "zonos" [] "x.wav" (some "v") false = (.ok "v", s1)
        ∧ clone_voice (fun _ => true) "zonos" s1 "y.wav" (some "v") false = (.ok "v", s2)
        ∧ countKeys s2 "v" = 1
        ∧ readFile s2 "v" "speaker_embedding.pt" = some (Content.embedding "y.wav")
        ∧ readFile s2 "v" "sample.wav" = some (Content.sample "y.wav"))) :=
  ⟨⟨rfl, rfl, by decide⟩,
    C7_clone_explicit_id_idempotent (fun _ => true) [] "x.wav" "y.wav" "v"
      rfl rfl (by decide)⟩

/-- A concrete store holding a cloned voice `zonos_alice` (embedding from
`alice.wav`) and a default slot (embedding from `d.wav`). -/
def storeWithAliceAndDefault : Store :=
  [("zonos_alice", [("speaker_embedding.pt", Content.embedding "alice.wav")]),
   ("zonos_default", [("speaker_embedding.pt", Content.embedding "d.wav")])]

/-- C1 counterexample: the store holds an embedding for the identifier
`zonos_alice`, yet a Zonos synthesize call given that identifier as its
voice (and no reference audio) conditions generation on the default
embedding, not on the one the identifier resolves to — the voice argument
is never forwarded to the Zonos path (tts_engine.py:154). -/
theorem C1_counterexample :
    synthesize (fun _ _ => []) "zonos" storeWithAliceAndDefault
        "hello" "zonos_alice" none
      = (.ok (.zonos (Content.embedding "d.wav")), storeWithAliceAndDefault)
    ∧ readFile storeWithAliceAndDefault "zonos_alice" "speaker_embedding.pt"
      = some (Content.embedding "alice.wav")
    ∧ Content.embedding "d.wav" ≠ Content.embedding "alice.wav" := by
  refine ⟨by decide, by decide, by decide⟩

/-- C1 (amended): for the Zonos backend, `synthesize` ignores the voice
identifier entirely — any two voice arguments give identical results; with
no reference audio it conditions generation on the default embedding in
`voices/zonos_default` when one exists (never on the named voice's
embedding). -/
theorem C1_amended_zonos_voice_ignored
    (pipeline : String → String → List (List Int)) (s : Store)
    (text v1 v2 : String) (reference_audio : Option String) (c : Content)
    (hdef : readFile s "zonos_default" "speaker_embedding.pt" = some c) :
    synthesize pipeline "zonos" s text v1 reference_audio
      = synthesize pipeline "zonos" s text v2 reference_audio
    ∧ synthesize pipeline "zonos" s text v1 none = (.ok (.zonos c), s) := by
  refine ⟨rfl, ?_⟩
  simp [synthesize, synthesize_zonos, hdef]

/-- Witness for the amended C1 at concrete inputs. -/
theorem C1_amended_zonos_voice_ignored_witness :
    readFile storeWithAliceAndDefault "zonos_default" "speaker_embedding.pt"
      = some (Content.embedding "d.wav")
    ∧ (synthesize (fun _ _ => []) "zonos" storeWithAliceAndDefault "hi" "a" none
        = synthesize (fun _ _ => []) "zonos" storeWithAliceAndDefault "hi" "b" none
      ∧ synthesize (fun _ _ => []) "zonos" storeWithAliceAndDefault "hi" "a" none
        = (.ok (.zonos (Content.embedding "d.wav")), storeWithAliceAndDefault)) :=
  ⟨by decide,
    C1_amended_zonos_voice_ignored (fun _ _ => []) storeWithAliceAndDefault
      "hi" "a" "b" none (Content.embedding "d.wav") (by decide)⟩

/-- C2 counterexample: starting from an empty Voice Store, a Zonos
synthesize call given the raw reference-audio path `alice.wav` leaves the
store changed — the computed speaker embedding is persisted under
`voices/zonos_alice` (tts_engine.py:218-222), contradicting the claim that
only clone operations persist embeddings. -/
theorem C2_counterexample :
    (synthesize (fun _ _ => []) "zonos" [] "hi" "v" (some "alice.wav")).2
      = [("zonos_alice", [("speaker_embedding.pt", Content.embedding "alice.wav")])]
    ∧ ([] : Store)
      ≠ [("zonos_alice", [("speaker_embedding.pt", Content.embedding "alice.wav")])] := by
  refine ⟨by decide, by decide⟩

/-- C2 (amended): a Zonos synthesize call given a raw reference-audio path
computes the speaker embedding and persists it: the resulting store is the
input store with the embedding written to
`voices/zonos_<stem>/speaker_embedding.pt`, which afterwards holds that
embedding — synthesis with reference audio, like cloning, persists. -/
theorem C2_amended_zonos_synthesize_persists
    (pipeline : String → String → List (List Int)) (s : Store)
    (text v ra : String) :
    synthesize pipeline "zonos" s text v (some ra)
      = (.ok (.zonos (Content.embedding ra)),
          writeFile s ("zonos_" ++ pyStem ra) "speaker_embedding.pt"
            (Content.embedding ra))
    ∧ readFile (synthesize pipeline "zonos" s text v (some ra)).2
        ("zonos_" ++ pyStem ra) "speaker_embedding.pt"
      = some (Content.embedding ra) := by
  have h : synthesize pipeline "zonos" s text v (some ra)
      = (.ok (.zonos (Content.embedding ra)),
          writeFile s ("zonos_" ++ pyStem ra) "speaker_embedding.pt"
            (Content.embedding ra)) := by
    simp [synthesize, synthesize_zonos]
  refine ⟨h, ?_⟩
  rw [h]
  exact readFile_writeFile_self _ _ _ _

theorem clone_zonos_embedding_present (s : Store) (audio : String)
    (voice_id : Option String) (make_default : Bool) :
    readFile (clone_voice_zonos s audio voice_id make_default).2
        (voice_id.getD (zonosAutoId audio)) "speaker_embedding.pt"
      = some (Content.embedding audio) := by
  have hsp : ("speaker_embedding.pt" : String) ≠ "sample.wav" := by decide
  cases make_default with
  | false =>
    simp only [clone_voice_zonos, Bool.false_eq_true, if_false]
    rw [readFile_writeFile_ne_file _ _ _ _ _ hsp]
    exact readFile_writeFile_self _ _ _ _
  | true =>
    simp only [clone_voice_zonos, if_true]
    by_cases hd : voice_id.getD (zonosAutoId audio) = "zonos_default"
    · rw [hd]
      exact readFile_writeFile_self _ _ _ _
    · rw [readFile_writeFile_ne_dir _ _ _ _ _ _ hd]
      rw [readFile_writeFile_ne_file _ _ _ _ _ hsp]
      exact readFile_writeFile_self _ _ _ _

/-- C4 counterexample: cloning `bob.wav` under Kokoro with the explicit
voice_id `bob` succeeds and returns `bob`, yet `list_voices().cloned` does
not contain `bob` — the listing only shows `kokoro_`-prefixed directories
(tts_engine.py:350-351), so an explicit id without the backend prefix is
invisible immediately after cloning. -/
theorem C4_counterexample :
    (clone_voice (fun _ => true) "kokoro" [] "bob.wav" (some "bob") false).1
      = .ok "bob"
    ∧ "bob" ∉ (list_voices_kokoro
        (clone_voice (fun _ => true) "kokoro" [] "bob.wav" (some "bob") false).2).cloned := by
  refine ⟨by decide, by decide⟩

/-- C4 (amended): immediately after `clone_voice` returns an identifier,
that identifier is in `list_voices().cloned` and resolves to a valid
VoiceRecord, provided the identifier carries the backend prefix — which
every auto-derived identifier does; an explicit identifier lacking the
prefix is stored on disk but invisible to listing. -/
theorem C4_amended_prefixed_id_listed_and_resolvable (fsExists : String → Bool)
    (s : Store) (audio : String) (voice_id : Option String) (make_default : Bool)
    (hex : fsExists audio = true) :
    ((strStartsWith (voice_id.getD (kokoroAutoId audio)) "kokoro_" = true →
      ∃ id s', clone_voice fsExists "kokoro" s audio voice_id make_default
          = (.ok id, s')
        ∧ id ∈ (list_voices_kokoro s').cloned
        ∧ (resolve "kokoro" s' id).isSome = true)
    ∧ (strStartsWith (voice_id.getD (zonosAutoId audio)) "zonos_" = true →
      ∃ id s', clone_voice fsExists "zonos" s audio voice_id make_default
          = (.ok id, s')
        ∧ id ∈ (list_voices_zonos s').cloned
        ∧ (resolve "zonos" s' id).isSome = true)) := by
  constructor
  · intro hpre
    refine ⟨voice_id.getD (kokoroAutoId audio),
      writeFile s (voice_id.getD (kokoroAutoId audio)) "sample.wav"
        (Content.sample audio), ?_, ?_, ?_⟩
    · simp [clone_voice, hex, clone_voice_kokoro]
    · have hr := readFile_writeFile_self s (voice_id.getD (kokoroAutoId audio))
        "sample.wav" (Content.sample audio)
      obtain ⟨files, hl, _⟩ := readFile_some_lookup _ _ _ _ hr
      exact (mem_cloned_kokoro_iff _ _).mpr ⟨files, lookupA_some_mem _ _ _ hl, hpre⟩
    · have hr := readFile_writeFile_self s (voice_id.getD (kokoroAutoId audio))
        "sample.wav" (Content.sample audio)
      obtain ⟨files, hl, _⟩ := readFile_some_lookup _ _ _ _ hr
      simp [resolve, hl]
  · intro hpre
    refine ⟨voice_id.getD (zonosAutoId audio),
      (clone_voice_zonos s audio voice_id make_default).2, ?_, ?_, ?_⟩
    · simp [clone_voice, hex, clone_voice_zonos]
    · have hr := clone_zonos_embedding_present s audio voice_id make_default
      obtain ⟨files, hl, hf⟩ := readFile_some_lookup _ _ _ _ hr
      refine (mem_cloned_zonos_iff _ _).mpr
        ⟨files, lookupA_some_mem _ _ _ hl, hpre, ?_⟩
      rw [hf]
      rfl
    · have hr := clone_zonos_embedding_present s audio voice_id make_default
      obtain ⟨files, hl, hf⟩ := readFile_some_lookup _ _ _ _ hr
      simp [resolve, hl, hf]

/-- Witness for the amended C4 at concrete inputs (auto-derived ids). -/
theorem C4_amended_prefixed_id_listed_and_resolvable_witness :
    ((fun (_ : String) => true) "a.wav" = true
      ∧ strStartsWith ((none : Option String).getD (kokoroAutoId "a.wav")) "kokoro_" = true
      ∧ strStartsWith ((none : Option String).getD (zonosAutoId "a.wav")) "zonos_" = true)
    ∧ ((∃ id s', clone_voice (fun _ => true) "kokoro" [] "a.wav" none false
          = (.ok id, s')
        ∧ id ∈ (list_voices_kokoro s').cloned
        ∧ (resolve "kokoro" s' id).isSome = true)
      ∧ (∃ id s', clone_voice (fun _ => true) "zonos" [] "a.wav" none false
          = (.ok id, s')
        ∧ id ∈ (list_voices_zonos s').cloned
        ∧ (resolve "zonos" s' id).isSome = true)) :=
  ⟨⟨rfl, by decide, by decide⟩,
    ⟨(C4_amended_prefixed_id_listed_and_resolvable (fun _ => true) [] "a.wav"
        none false rfl).1 (by decide),
      (C4_amended_prefixed_id_listed_and_resolvable (fun _ => true) [] "a.wav"
        none false rfl).2 (by decide)⟩⟩

/-- C5 counterexample: a Zonos synthesize call given reference audio named
`default.wav` writes the computed embedding to
`voices/zonos_default/speaker_embedding.pt` (tts_engine.py:218-222 with
stem `default`), mutating the DefaultVoice slot although no clone with
`make_default=true` ever ran. -/
theorem C5_counterexample :
    readFile ((synthesize (fun _ _ => []) "zonos" [] "hi" "v"
          (some "default.wav")).2)
        "zonos_default" "speaker_embedding.pt"
      = some (Content.embedding "default.wav")
    ∧ readFile ([] : Store) "zonos_default" "speaker_embedding.pt" = none := by
  refine ⟨by decide, by decide⟩

/-- C5 (amended): the DefaultVoice embedding at
`voices/zonos_default/speaker_embedding.pt` is unchanged by Kokoro clones,
by Zonos clones without `make_default` whose (explicit or derived) id is
not `zonos_default`, by Zonos synthesize with no reference audio, and by
Zonos synthesize whose reference audio stem is not `default`; it can
additionally be written by a Zonos clone or synthesize whose target
directory is `zonos_default` itself, not only by `make_default=true`. -/
theorem C5_amended_default_slot_frame (fsExists : String → Bool)
    (pipeline : String → String → List (List Int)) (s : Store)
    (audio : String) (voice_id : Option String) (make_default : Bool)
    (text v ra : String)
    (hz : voice_id.getD (zonosAutoId audio) ≠ "zonos_default")
    (hra : "zonos_" ++ pyStem ra ≠ "zonos_default") :
    (readFile (clone_voice fsExists "kokoro" s audio voice_id make_default).2
        "zonos_default" "speaker_embedding.pt"
      = readFile s "zonos_default" "speaker_embedding.pt")
    ∧ (readFile (clone_voice fsExists "zonos" s audio voice_id false).2
        "zonos_default" "speaker_embedding.pt"
      = readFile s "zonos_default" "speaker_embedding.pt")
    ∧ ((synthesize pipeline "zonos" s text v none).2 = s)
    ∧ (readFile (synthesize pipeline "zonos" s text v (some ra)).2
        "zonos_default" "speaker_embedding.pt"
      = readFile s "zonos_default" "speaker_embedding.pt") := by
  refine ⟨?_, ?_, ?_, ?_⟩
  · cases hfe : fsExists audio with
    | false => simp [clone_voice, hfe]
    | true =>
      have he : (clone_voice fsExists "kokoro" s audio voice_id make_default).2
          = writeFile s (voice_id.getD (kokoroAutoId audio)) "sample.wav"
              (Content.sample audio) := by
        simp [clone_voice, hfe, clone_voice_kokoro]
      rw [he]
      exact readFile_writeFile_frame _ _ _ _ _ _ (Or.inr (by decide))
  · cases hfe : fsExists audio with
    | false => simp [clone_voice, hfe]
    | true =>
      have he : (clone_voice fsExists "zonos" s audio voice_id false).2
          = writeFile (writeFile s (voice_id.getD (zonosAutoId audio))
              "speaker_embedding.pt" (Content.embedding audio))
              (voice_id.getD (zonosAutoId audio)) "sample.wav"
              (Content.sample audio) := by
        simp [clone_voice, hfe, clone_voice_zonos]
      rw [he]
      rw [readFile_writeFile_frame _ _ _ _ _ _ (Or.inl (Ne.symm hz))]
      exact readFile_writeFile_frame _ _ _ _ _ _ (Or.inl (Ne.symm hz))
  · cases hread : readFile s "zonos_default" "speaker_embedding.pt" with
    | none => simp [synthesize, synthesize_zonos, hread]
    | some c => simp [synthesize, synthesize_zonos, hread]
  · have he : (synthesize pipeline "zonos" s text v (some ra)).2
        = writeFile s ("zonos_" ++ pyStem ra) "speaker_embedding.pt"
            (Content.embedding ra) := by
      simp [synthesize, synthesize_zonos]
    rw [he]
    exact readFile_writeFile_frame _ _ _ _ _ _ (Or.inl (Ne.symm hra))

/-- Witness for the amended C5 at concrete inputs. -/
theorem C5_amended_default_slot_frame_witness :
    (((none : Option String).getD (zonosAutoId "a.wav") ≠ "zonos_default")
      ∧ ("zonos_" ++ pyStem "r.wav" ≠ "zonos_default"))
    ∧ ((readFile (clone_voice (fun _ => true) "kokoro" [] "a.wav" none false).2
          "zonos_default" "speaker_embedding.pt"
        = readFile ([] : Store) "zonos_default" "speaker_embedding.pt")
      ∧ (readFile (clone_voice (fun _ => true) "zonos" [] "a.wav" none false).2
          "zonos_default" "speaker_embedding.pt"
        = readFile ([] : Store) "zonos_default" "speaker_embedding.pt")
      ∧ ((synthesize (fun _ _ => []) "zonos" [] "hi" "v" none).2 = [])
      ∧ (readFile (synthesize (fun _ _ => []) "zonos" [] "hi" "v"
            (some "r.wav")).2
          "zonos_default" "speaker_embedding.pt"
        = readFile ([] : Store) "zonos_default" "speaker_embedding.pt")) :=
  ⟨⟨by decide, by decide⟩,
    C5_amended_default_slot_frame (fun _ => true) (fun _ _ => []) [] "a.wav"
      none false "hi" "v" "r.wav" (by decide) (by decide)⟩

/-- C6 counterexample: cloning `my.voice.wav` under Kokoro with no explicit
id yields `kokoro_my` — the text before the FIRST dot — whereas the
filename stem is `my.voice`, so the derived identifier is not the backend
prefix followed by the stem. -/
theorem C6_counterexample :
    (clone_voice (fun _ => true) "kokoro" [] "my.voice.wav" none false).1
      = .ok "kokoro_my"
    ∧ pyStem "my.voice.wav" = "my.voice"
    ∧ ("kokoro_my" : String) ≠ "kokoro_" ++ pyStem "my.voice.wav" := by
  refine ⟨by decide, by decide, by decide⟩

/-- C6 (amended): when `clone_voice` is called without an explicit
voice_id, the returned identifier is the backend prefix followed by the
part of the sample's file name before the FIRST dot (equal to the stem for
names with at most one dot); in particular cloning `bob.wav` under Kokoro
yields `kokoro_bob`. -/
theorem C6_amended_auto_id_first_dot (fsExists : String → Bool) (s : Store)
    (audio : String) (make_default : Bool) (hex : fsExists audio = true) :
    ((clone_voice fsExists "kokoro" s audio none make_default).1
      = .ok ("kokoro_" ++ firstDotPart (basename audio)))
    ∧ ((clone_voice fsExists "zonos" s audio none make_default).1
      = .ok ("zonos_" ++ firstDotPart (basename audio)))
    ∧ (clone_voice (fun _ => true) "kokoro" ([] : Store) "bob.wav" none false).1
      = .ok "kokoro_bob" := by
  refine ⟨?_, ?_, by decide⟩
  · simp [clone_voice, hex, clone_voice_kokoro, kokoroAutoId]
  · simp [clone_voice, hex, clone_voice_zonos, zonosAutoId]

/-- Witness for the amended C6 at concrete inputs. -/
theorem C6_amended_auto_id_first_dot_witness :
    ((fun (_ : String) => true) "dir/bob.wav" = true)
    ∧ (((clone_voice (fun _ => true) "kokoro" [] "dir/bob.wav" none false).1
        = .ok ("kokoro_" ++ firstDotPart (basename "dir/bob.wav")))
      ∧ ((clone_voice (fun _ => true) "zonos" [] "dir/bob.wav" none false).1
        = .ok ("zonos_" ++ firstDotPart (basename "dir/bob.wav")))
      ∧ (clone_voice (fun _ => true) "kokoro" ([] : Store) "bob.wav" none false).1
        = .ok "kokoro_bob") :=
  ⟨rfl, C6_amended_auto_id_first_dot (fun _ => true) [] "dir/bob.wav" false rfl⟩

end VoiceAgent
